import Mathlib

/-!
Verification of `src/backend.py` (LiveMeetingSummarizer backend), a shallow
embedding in Lean 4.

The backend has five parts:
  1. `check_and_download_model` — model provisioning;
  2. `AudioRecorder` — microphone capture into a queue plus a wav file;
  3. `STTEngine` — remote transcription (Groq Whisper);
  4. `MeetingSummarizer` — remote summarization (Groq chat);
  5. `save_to_md` / `send_email_func` — output utilities.

External effects (the sounddevice stream, the `wave` stdlib module, the
filesystem, the Groq network client, SMTP) are embedded as explicit state or
as oracle parameters, following the Python semantics of the libraries the
code calls.  Raising Python code is `Except`-valued; code that cannot raise
is a total function.
-/

namespace Backend

/-- One raw byte chunk delivered by a single realtime-callback invocation
(`bytes(indata)` in `AudioRecorder._callback`). -/
abbrev Chunk := List Nat

/-! ### The `wave` stdlib handle

`wave.open(filename, "wb")` returns a `Wave_write` object.  After
`close()`, the Python object still exists (and is truthy), but its
internal `_file` attribute is `None`, so any further `writeframes` or
`close` call raises `AttributeError`.  We model the handle as the pair of
an open flag and the byte content written so far (`header ++ frames`). -/

structure WaveWrite where
  isOpen : Bool
  /-- The RIFF/WAVE header bytes the `wave` module emits for the configured
  format (1 channel, 2-byte samples, the session's sample rate). -/
  header : List Nat
  /-- The raw sample bytes appended by `writeframes` calls, in order. -/
  frames : List Nat
  deriving Repr, DecidableEq

/-- The byte content of the file on disk backing a `Wave_write`. -/
def WaveWrite.fileBytes (w : WaveWrite) : List Nat :=
  w.header ++ w.frames

/-- `Wave_write.writeframes(data)`: appends `data` to the file when the
handle is open; on a closed handle `self._file` is `None` and the call
raises `AttributeError`. -/
def WaveWrite.writeframes (w : WaveWrite) (data : Chunk) : Except String WaveWrite :=
  if w.isOpen then
    .ok { w with frames := w.frames ++ data }
  else
    .error "AttributeError: NoneType object has no attribute write"

/-- `Wave_write.close()`: flushes and closes when open; a second `close`
reaches `self._file.flush()` with `_file = None` and raises
`AttributeError`. -/
def WaveWrite.close (w : WaveWrite) : Except String WaveWrite :=
  if w.isOpen then
    .ok { w with isOpen := false }
  else
    .error "AttributeError: NoneType object has no attribute flush"

/-! ### The sounddevice stream handle

`sd.RawInputStream(...)` with a callback.  Its `stop()` and `close()`
methods default to `ignore_errors=True`, so calling them on an already
stopped or closed stream does not raise, but `close` on a closed handle is
still a second close of that handle — we count closes to make the
double-close observable. -/

structure StreamHandle where
  active : Bool
  isOpen : Bool
  /-- How many times `close()` has been invoked on this handle. -/
  closeCalls : Nat
  deriving Repr, DecidableEq

/-- `RawInputStream.stop(ignore_errors=True)`: deactivates, never raises. -/
def StreamHandle.stopStream (s : StreamHandle) : StreamHandle :=
  { s with active := false }

/-- `RawInputStream.close(ignore_errors=True)`: closes, never raises, even
when the handle is already closed. -/
def StreamHandle.closeStream (s : StreamHandle) : StreamHandle :=
  { s with isOpen := false, closeCalls := s.closeCalls + 1 }

/-! ### `AudioRecorder` -/

structure AudioRecorder where
  output_filename : String
  sample_rate : Nat
  /-- `queue.Queue()` of raw chunks, FIFO; the head is the oldest chunk. -/
  audio_queue : List Chunk
  recording : Bool
  wav_file : Option WaveWrite
  stream : Option StreamHandle
  deriving Repr, DecidableEq

/-- `AudioRecorder.__init__`. -/
def AudioRecorder.init (output_filename : String) (sample_rate : Nat) : AudioRecorder :=
  { output_filename := output_filename
    sample_rate := sample_rate
    audio_queue := []
    recording := false
    wav_file := none
    stream := none }

/-- `AudioRecorder._callback(indata, frames, time, status)`: on a non-clean
`status` it prints a diagnostic to stderr, and in every case it enqueues
`bytes(indata)`. -/
def AudioRecorder.callback (r : AudioRecorder) (status : Bool) (indata : Chunk) :
    AudioRecorder :=
  -- the `if status: print(...)` branch only writes to stderr
  { r with audio_queue := r.audio_queue ++ [indata] }

/-- `AudioRecorder.start()`: opens the wav file for writing (the `wave`
module emits the header `hdr` for mono 16-bit at `sample_rate`), then opens
and starts the input stream.  `hdr` stands for the header bytes produced by
the `wave` library. -/
def AudioRecorder.start (r : AudioRecorder) (hdr : List Nat) : AudioRecorder :=
  { r with
    recording := true
    wav_file := some { isOpen := true, header := hdr, frames := [] }
    stream := some { active := true, isOpen := true, closeCalls := 0 } }

/-- `AudioRecorder.stop()`: sets `recording = False`; if `self.stream` is
truthy (any stream object, open or closed) calls `stop()` and `close()` on
it; if `self.wav_file` is truthy calls `close()` on it, which raises when
the wave handle was already closed.  Neither attribute is reset to `None`. -/
def AudioRecorder.stop (r : AudioRecorder) : Except String AudioRecorder :=
  let r₁ := { r with recording := false }
  let r₂ :=
    match r₁.stream with
    | some s => { r₁ with stream := some s.stopStream.closeStream }
    | none => r₁
  match r₂.wav_file with
  | some w => (w.close).map fun w' => { r₂ with wav_file := some w' }
  | none => .ok r₂

/-- The loop body of `AudioRecorder.process_queue`, recursing over the
chunks currently in the queue: pop a chunk, write it to the wav file when
`self.wav_file` is truthy (raising if the handle is closed), and yield it. -/
def processQueueAux (chunks : List Chunk) (wav : Option WaveWrite) :
    Except String (List Chunk × Option WaveWrite) :=
  match chunks with
  | [] => .ok ([], wav)
  | data :: rest =>
    match wav with
    | some w =>
      match w.writeframes data with
      | .error e => .error e
      | .ok w' =>
        (processQueueAux rest (some w')).map fun (ys, wav') => (data :: ys, wav')
    | none =>
      (processQueueAux rest none).map fun (ys, wav') => (data :: ys, wav')

/-- `AudioRecorder.process_queue()`: drains every chunk currently enqueued,
writing each to the wav file and yielding it; the returned list is the
sequence of yielded chunks in order. -/
def AudioRecorder.process_queue (r : AudioRecorder) :
    Except String (List Chunk × AudioRecorder) :=
  (processQueueAux r.audio_queue r.wav_file).map fun (ys, wav') =>
    (ys, { r with audio_queue := [], wav_file := wav' })

/-! ### Session traces

A session interleaves realtime-callback invocations (produced by the audio
subsystem) with `process_queue` drains (invoked by the foreground thread).
A trace is the global order of these events. -/

inductive SessionEvent where
  /-- One realtime-callback invocation delivering one chunk. -/
  | cb (status : Bool) (data : Chunk)
  /-- One full `process_queue()` invocation by the consumer. -/
  | drain
  deriving Repr, DecidableEq

/-- Run a trace of events, concatenating the chunks yielded by the drains
in order. -/
def runSession (r : AudioRecorder) : List SessionEvent → Except String (List Chunk × AudioRecorder)
  | [] => .ok ([], r)
  | .cb status data :: es => runSession (r.callback status data) es
  | .drain :: es =>
    match r.process_queue with
    | .error e => .error e
    | .ok (ys, r') =>
      (runSession r' es).map fun (zs, r'') => (ys ++ zs, r'')

/-- The chunks delivered by the callbacks of a trace, in production order. -/
def producedChunks : List SessionEvent → List Chunk
  | [] => []
  | .cb _ data :: es => data :: producedChunks es
  | .drain :: es => producedChunks es

/-! ### The Groq client and the two engines -/

/-- The Groq SDK client object, holding the API key it was constructed
with. -/
structure GroqClient where
  api_key : String
  deriving Repr, DecidableEq

/-- `Groq(api_key=api_key) if api_key else None`: by Python truthiness both
`None` and the empty string leave the client unset. -/
def mkGroqClient (api_key : Option String) : Option GroqClient :=
  match api_key with
  | some k => if k = "" then none else some ⟨k⟩
  | none => none

/-- `STTEngine` (Groq Whisper). -/
structure STTEngine where
  client : Option GroqClient
  deriving Repr, DecidableEq

/-- `STTEngine.__init__(api_key=None)`. -/
def STTEngine.init (api_key : Option String) : STTEngine :=
  ⟨mkGroqClient api_key⟩

/-- `STTEngine.process_chunk(data)`: live per-chunk processing is not done
with Whisper, so the method returns `None` unconditionally. -/
def STTEngine.process_chunk (_e : STTEngine) (_data : Chunk) : Option String :=
  none

/-- Oracle for the effects inside `transcribe_file`'s `try` block: reading
the audio file (`open`/`read`, may raise an `OSError`) and the Whisper
transcription request over the file's name and bytes (may raise, or return
the response's `text` field). -/
structure TranscribeEnv where
  readFile : String → Except String (List Nat)
  whisper : String → List Nat → Except String String

/-- `STTEngine.transcribe_file(filename)`.  The second component records
whether any file or network I/O was performed.  A missing client
short-circuits to the fixed error string before the `try` block; inside it,
any exception is caught and rendered as `"Transcription Error: ..."`. -/
def STTEngine.transcribe_file (e : STTEngine) (env : TranscribeEnv)
    (filename : String) : String × Bool :=
  match e.client with
  | none => ("Error: Groq API Key missing.", false)
  | some _ =>
    match env.readFile filename with
    | .error err => ("Transcription Error: " ++ err, true)
    | .ok contents =>
      match env.whisper filename contents with
      | .ok text => (text, true)
      | .error err => ("Transcription Error: " ++ err, true)

/-- `MeetingSummarizer` (Groq chat completions). -/
structure MeetingSummarizer where
  client : Option GroqClient
  deriving Repr, DecidableEq

/-- `MeetingSummarizer.__init__(api_key)`. -/
def MeetingSummarizer.init (api_key : Option String) : MeetingSummarizer :=
  ⟨mkGroqClient api_key⟩

/-- The f-string prompt template of `generate_summary`, embedding the
transcript verbatim. -/
def summaryPrompt (transcript : String) : String :=
  "\n        You are an expert secretary. Summarize this meeting transcript properly.\n        \n        Transcript:\n        "
    ++ transcript
    ++ "\n        \n        Output format:\n        ## Meeting Summary\n        * **Topic:** [Topic]\n        * **Key Points:** [Bulleted list]\n        * **Action Items:** [List of tasks]\n        "

/-- `MeetingSummarizer.generate_summary(transcript)`.  `chat` is the oracle
for the chat-completion request (the first choice's message content, or the
exception it raises); the second component of the result records whether
the network was touched.  Guards: no client → fixed missing-key string;
`not transcript or len(transcript) < 5` → fixed too-short string. -/
def MeetingSummarizer.generate_summary (m : MeetingSummarizer)
    (chat : String → Except String String) (transcript : String) : String × Bool :=
  match m.client with
  | none => ("Error: Groq API Key missing.", false)
  | some _ =>
    if transcript = "" ∨ transcript.length < 5 then
      ("Transcript too short to summarize.", false)
    else
      match chat (summaryPrompt transcript) with
      | .ok content => (content, true)
      | .error e => ("Groq Error: " ++ e, true)

/-! ### Model provisioning -/

/-- Oracle for the network download in `check_and_download_model`: the set
of entries the downloaded archive extracts into the working directory. -/
structure DownloadEnv where
  extractedEntries : List String
  deriving Repr, DecidableEq

/-- The observable outcome of `check_and_download_model`: its return value,
the resulting working-directory content, and whether the network was
used. -/
structure ProvisionOutcome where
  ret : String
  fs : List String
  networkUsed : Bool
  deriving Repr, DecidableEq

/-- `check_and_download_model(model_name)`.  `fs` lists the entries present
in the working directory (`os.path.exists`).  When the model entry is
absent: the archive `model_name + ".zip"` is streamed to disk, extracted
into the working directory, and removed; the function always returns
`model_name`. -/
def check_and_download_model (env : DownloadEnv) (fs : List String)
    (model_name : String) : ProvisionOutcome :=
  if model_name ∈ fs then
    ⟨model_name, fs, false⟩
  else
    let fs₁ := fs ++ [model_name ++ ".zip"]
    let fs₂ := fs₁ ++ env.extractedEntries
    let fs₃ := fs₂.filter (fun p => p ≠ model_name ++ ".zip")
    ⟨model_name, fs₃, true⟩

/-! ### Output utilities -/

/-- A flat view of the filesystem used by `save_to_md`: pairs of an
absolute path and the file's text content; writing overwrites. -/
abbrev FileSys := List (String × String)

/-- `open(path, "w").write(text)`: overwrite the file at `p` with `c`. -/
def FileSys.writeAt (fs : FileSys) (p c : String) : FileSys :=
  (p, c) :: fs.filter (fun e => e.1 ≠ p)

/-- Reading a file's content back. -/
def FileSys.readAt (fs : FileSys) (p : String) : Option String :=
  (fs.find? (fun e => e.1 = p)).map (fun e => e.2)

/-- `os.path.isabs` on POSIX: the path starts with a slash (stated on the
character list underlying the string, which is the same test as
`startswith("/")`). -/
def posixIsAbs (p : String) : Bool :=
  p.data.head? == some '/'

/-- `os.path.abspath` on POSIX, for paths without `.`/`..` segments: a path
starting with `/` is already absolute, any other is resolved against the
current working directory. -/
def posixAbspath (cwd p : String) : String :=
  if posixIsAbs p then p else cwd ++ "/" ++ p

/-- `save_to_md(text, filename="summary.md")`: overwrites `filename` with
`text` and returns `os.path.abspath(filename)`.  `cwd` is the process's
current working directory. -/
def save_to_md (cwd : String) (fs : FileSys) (text : String)
    (filename : String) : String × FileSys :=
  (posixAbspath cwd filename, fs.writeAt (posixAbspath cwd filename) text)

/-- A simplified `msg.as_string()` for the MIME message `send_email_func`
builds (headers plus plain-text body); its exact serialization is
irrelevant here, only that building it from string inputs cannot raise. -/
def mimeMessage (user recipient subject body : String) : String :=
  "From: " ++ user ++ "\nTo: " ++ recipient ++ "\nSubject: " ++ subject
    ++ "\n\n" ++ body

/-- Oracle for the SMTP session inside `send_email_func`'s `try` block
(connect to smtp.gmail.com:587, STARTTLS, login, send, quit): `ok` when the
whole session succeeds, otherwise the text of the first exception raised
(unreachable host, bad credentials, ...). -/
structure SmtpEnv where
  session : String → String → String → String → Except String Unit

/-- `send_email_func(user, password, recipient, subject, body)`: builds the
message, runs the SMTP session, and catches every exception, so it always
returns a plain status string. -/
def send_email_func (env : SmtpEnv) (user password recipient subject body : String) :
    String :=
  match env.session user password recipient (mimeMessage user recipient subject body) with
  | .ok _ => "Email sent!"
  | .error e => "Email Error: " ++ e

/-! ### Lemmas about draining -/

/-- Draining with an open wave handle yields exactly the queued chunks and
appends their bytes to the file, in order. -/
theorem processQueueAux_open (chunks : List Chunk) :
    ∀ hdr frames : List Nat,
      processQueueAux chunks (some ⟨true, hdr, frames⟩)
        = .ok (chunks, some ⟨true, hdr, frames ++ chunks.flatten⟩) := by
  induction chunks with
  | nil => intro hdr frames; simp [processQueueAux]
  | cons data rest ih =>
    intro hdr frames
    simp [processQueueAux, WaveWrite.writeframes, ih, Except.map, List.append_assoc]

/-- Invariant of a session whose wave handle is open: running any trace of
events succeeds, the chunks yielded so far followed by the chunks still
queued are exactly the initial queue followed by the chunks produced by the
trace's callbacks, and the wave file has accumulated exactly the yielded
bytes. -/
theorem runSession_wavOpen (es : List SessionEvent) :
    ∀ (fn : String) (sr : Nat) (q : List Chunk) (rec : Bool)
      (hdr frames : List Nat) (st : Option StreamHandle),
      ∃ out r',
        runSession ⟨fn, sr, q, rec, some ⟨true, hdr, frames⟩, st⟩ es = .ok (out, r')
        ∧ out ++ r'.audio_queue = q ++ producedChunks es
        ∧ r'.wav_file = some ⟨true, hdr, frames ++ out.flatten⟩
        ∧ r'.stream = st := by
  induction es with
  | nil =>
    intro fn sr q rec hdr frames st
    exact ⟨[], _, rfl, by simp [producedChunks], by simp, rfl⟩
  | cons e es ih =>
    cases e with
    | cb status data =>
      intro fn sr q rec hdr frames st
      obtain ⟨out, r', h, hq, hw, hs⟩ := ih fn sr (q ++ [data]) rec hdr frames st
      refine ⟨out, r', ?_, ?_, hw, hs⟩
      · simpa [runSession, AudioRecorder.callback] using h
      · simpa [producedChunks, List.append_assoc] using hq
    | drain =>
      intro fn sr q rec hdr frames st
      obtain ⟨out, r', h, hq, hw, hs⟩ := ih fn sr [] rec hdr (frames ++ q.flatten) st
      refine ⟨q ++ out, r', ?_, ?_, ?_, hs⟩
      · simp only [runSession, AudioRecorder.process_queue, processQueueAux_open,
          Except.map]
        simpa [Except.map] using congrArg (Except.map fun p => (q ++ p.1, p.2)) h
      · simpa [producedChunks, List.append_assoc] using hq
      · simpa [List.append_assoc] using hw

/-- Running a concatenation of traces runs them in sequence, concatenating
the yielded chunks. -/
theorem runSession_append (es₁ : List SessionEvent) :
    ∀ (es₂ : List SessionEvent) (r : AudioRecorder),
      runSession r (es₁ ++ es₂)
        = (runSession r es₁).bind fun p =>
            (runSession p.2 es₂).map fun p₂ => (p.1 ++ p₂.1, p₂.2) := by
  induction es₁ with
  | nil =>
    intro es₂ r
    simp only [List.nil_append, runSession, Except.bind]
    cases runSession r es₂ <;> simp [Except.map]
  | cons e es ih =>
    intro es₂ r
    cases e with
    | cb status data =>
      simp only [List.cons_append, runSession]
      exact ih es₂ (r.callback status data)
    | drain =>
      simp only [List.cons_append, runSession]
      cases r.process_queue with
      | error e => simp [Except.bind]
      | ok p =>
        obtain ⟨ys, r'⟩ := p
        simp only [List.append_eq]
        rw [ih]
        cases runSession r' es with
        | error e => simp [Except.bind, Except.map]
        | ok p₁ =>
          obtain ⟨zs, r₁⟩ := p₁
          cases hr : runSession r₁ es₂ <;>
            simp [hr, Except.bind, Except.map, List.append_assoc]

/-- **C1.** For every sequence of N realtime-callback invocations on an
active `AudioRecorder`, each delivering chunk `C_i` (interleaved arbitrarily
with `process_queue` drains), a full drain — ending with one final
`process_queue` — yields the chunks in exactly the order `C_1..C_N`, with no
chunk lost or duplicated, and the output file's byte content equals the
fixed header followed by the concatenation of all `C_i` in that order. -/
theorem c1_drain_is_fifo_and_file_matches (fn : String) (sr : Nat)
    (hdr : List Nat) (es : List SessionEvent) :
    ∃ r',
      runSession ((AudioRecorder.init fn sr).start hdr) (es ++ [.drain])
        = .ok (producedChunks es, r')
      ∧ r'.audio_queue = []
      ∧ ∃ wf, r'.wav_file = some wf
          ∧ wf.fileBytes = hdr ++ (producedChunks es).flatten := by
  obtain ⟨out, r', h, hq, hw, -⟩ :=
    runSession_wavOpen es fn sr [] true hdr [] (some ⟨true, true, 0⟩)
  have hq' : out ++ r'.audio_queue = producedChunks es := by simpa using hq
  have hw' : r'.wav_file = some ⟨true, hdr, out.flatten⟩ := by simpa using hw
  have hr0 : (AudioRecorder.init fn sr).start hdr
      = ⟨fn, sr, [], true, some ⟨true, hdr, []⟩, some ⟨true, true, 0⟩⟩ := rfl
  have hpq : r'.process_queue
      = .ok (r'.audio_queue,
          { r' with
              audio_queue := []
              wav_file := some ⟨true, hdr, out.flatten ++ r'.audio_queue.flatten⟩ }) := by
    rw [AudioRecorder.process_queue, hw', processQueueAux_open]
    simp [Except.map]
  refine ⟨{ r' with
      audio_queue := []
      wav_file := some ⟨true, hdr, out.flatten ++ r'.audio_queue.flatten⟩ },
    ?_, rfl, ⟨true, hdr, out.flatten ++ r'.audio_queue.flatten⟩, rfl, ?_⟩
  · rw [hr0, runSession_append, h]
    simp only [Except.bind, runSession, hpq, Except.map]
    rw [List.append_nil, hq']
  · show hdr ++ (out.flatten ++ r'.audio_queue.flatten) = hdr ++ (producedChunks es).flatten
    rw [← List.flatten_append, hq']

/-- **C2.** The claim says a chunk enqueued before `stop()` remains
drainable afterward without error.  The code violates it: `stop()` closes
the wave handle but leaves `self.wav_file` set, so the `process_queue` call
after `stop()` pops the chunk and then raises `AttributeError` inside
`writeframes` on the closed handle — the chunk is neither yielded nor
flushed. -/
theorem c2_drain_after_stop_raises :
    ∃ r₁,
      ((((AudioRecorder.init "temp_meeting.wav" 16000).start []).callback
          false [1, 2]).stop) = .ok r₁
      ∧ r₁.audio_queue = [[1, 2]]
      ∧ r₁.process_queue
          = .error "AttributeError: NoneType object has no attribute write" :=
  ⟨_, rfl, rfl, rfl⟩

/-- **C3.** The claim says `stop()` never closes the same handle twice.
After one successful `start()`/`stop()` cycle both attributes still hold
their (closed) handle objects, so a second `stop()` calls `close()` on the
already-closed stream (its `closeCalls` was already 1) and then on the
already-closed wave handle, which raises `AttributeError`. -/
theorem c3_double_stop_double_closes :
    ∃ r₁,
      ((AudioRecorder.init "temp_meeting.wav" 16000).start []).stop = .ok r₁
      ∧ r₁.wav_file = some ⟨false, [], []⟩
      ∧ r₁.stream = some ⟨false, false, 1⟩
      ∧ r₁.stop = .error "AttributeError: NoneType object has no attribute flush" :=
  ⟨_, rfl, rfl, rfl, rfl⟩

/-- **C4.** `send_email_func` never raises: whatever the SMTP session does
— including an unreachable host or invalid credentials — it returns either
the fixed success string or an error string embedding the underlying
failure reason. -/
theorem c4_send_email_never_raises (env : SmtpEnv)
    (user password recipient subject body : String) :
    send_email_func env user password recipient subject body = "Email sent!"
    ∨ ∃ e,
        env.session user password recipient
            (mimeMessage user recipient subject body) = .error e
        ∧ send_email_func env user password recipient subject body
            = "Email Error: " ++ e := by
  unfold send_email_func
  cases h : env.session user password recipient
      (mimeMessage user recipient subject body) with
  | ok u => exact Or.inl rfl
  | error e => exact Or.inr ⟨e, rfl, rfl⟩

/-- **C5.** With credentials present, every transcript shorter than 5
characters (in particular `""` and `"hi"`) yields the fixed "too short"
string and no network call. -/
theorem c5_short_transcript_no_network (k : String) (hk : k ≠ "")
    (chat : String → Except String String) (transcript : String)
    (ht : transcript.length < 5) :
    (MeetingSummarizer.init (some k)).generate_summary chat transcript
      = ("Transcript too short to summarize.", false) := by
  have hclient : (MeetingSummarizer.init (some k)).client = some ⟨k⟩ := by
    simp [MeetingSummarizer.init, mkGroqClient, hk]
  unfold MeetingSummarizer.generate_summary
  rw [hclient]
  exact if_pos (Or.inr ht)

/-- Witness for C5 at the concrete inputs of the claim. -/
theorem c5_short_transcript_no_network_witness :
    ("hi".length < 5 ∧ "".length < 5)
    ∧ (MeetingSummarizer.init (some "gsk_test")).generate_summary
        (fun _ => .error "network down") "hi"
      = ("Transcript too short to summarize.", false) :=
  ⟨by decide,
    c5_short_transcript_no_network "gsk_test" (by decide)
      (fun _ => .error "network down") "hi" (by decide)⟩

/-- **C6.** With no credentials configured, `transcribe_file` and
`generate_summary` return their fixed missing-credentials string for every
input, without performing any file or network I/O. -/
theorem c6_missing_credentials_no_io (env : TranscribeEnv) (filename : String)
    (chat : String → Except String String) (transcript : String) :
    (STTEngine.init none).transcribe_file env filename
      = ("Error: Groq API Key missing.", false)
    ∧ (MeetingSummarizer.init none).generate_summary chat transcript
      = ("Error: Groq API Key missing.", false) :=
  ⟨rfl, rfl⟩

/-- **C7.** `check_and_download_model` is a no-op when the model entry is
already present in the working directory: no network access, the directory
content unchanged, and the model name returned. -/
theorem c7_ensure_noop_when_present (env : DownloadEnv) (fs : List String)
    (model_name : String) (h : model_name ∈ fs) :
    check_and_download_model env fs model_name = ⟨model_name, fs, false⟩ := by
  unfold check_and_download_model
  exact if_pos h

/-- Witness for C7 at the default model name. -/
theorem c7_ensure_noop_when_present_witness :
    "vosk-model-small-en-us-0.15" ∈ ["vosk-model-small-en-us-0.15"]
    ∧ check_and_download_model ⟨["data"]⟩ ["vosk-model-small-en-us-0.15"]
        "vosk-model-small-en-us-0.15"
      = ⟨"vosk-model-small-en-us-0.15", ["vosk-model-small-en-us-0.15"], false⟩ :=
  ⟨by decide,
    c7_ensure_noop_when_present ⟨["data"]⟩ _ _ (by decide)⟩

/-- Resolving any path against an absolute working directory yields an
absolute path. -/
theorem posixIsAbs_posixAbspath (cwd p : String) (h : posixIsAbs cwd = true) :
    posixIsAbs (posixAbspath cwd p) = true := by
  unfold posixAbspath
  by_cases hp : posixIsAbs p = true
  · rw [if_pos hp]; exact hp
  · rw [if_neg hp]
    unfold posixIsAbs at h ⊢
    rw [String.data_append, String.data_append]
    cases hc : cwd.data with
    | nil => rw [hc] at h; simp at h
    | cons c t =>
      rw [hc] at h
      simp only [List.head?] at h
      simp [List.head?, h]

/-- **C8.** `save_to_md` is idempotent and round-trips: one call (or two
with the same arguments, the second changing nothing) leaves the file's
content equal to the text, and the returned value is an absolute path at
which the text can be read back. -/
theorem c8_save_to_md_idempotent_roundtrip (cwd : String) (fs : FileSys)
    (text filename : String) (hcwd : posixIsAbs cwd = true) :
    posixIsAbs (save_to_md cwd fs text filename).1 = true
    ∧ FileSys.readAt (save_to_md cwd fs text filename).2
        (save_to_md cwd fs text filename).1 = some text
    ∧ save_to_md cwd (save_to_md cwd fs text filename).2 text filename
        = save_to_md cwd fs text filename := by
  refine ⟨posixIsAbs_posixAbspath cwd filename hcwd, ?_, ?_⟩
  · simp [save_to_md, FileSys.readAt, FileSys.writeAt]
  · simp [save_to_md, FileSys.writeAt, List.filter_filter]

/-- Witness for C8 at concrete inputs. -/
theorem c8_save_to_md_idempotent_roundtrip_witness :
    posixIsAbs "/home/user" = true
    ∧ (posixIsAbs (save_to_md "/home/user" [] "# Summary" "summary.md").1 = true
      ∧ FileSys.readAt (save_to_md "/home/user" [] "# Summary" "summary.md").2
          (save_to_md "/home/user" [] "# Summary" "summary.md").1 = some "# Summary"
      ∧ save_to_md "/home/user" (save_to_md "/home/user" [] "# Summary" "summary.md").2
          "# Summary" "summary.md"
        = save_to_md "/home/user" [] "# Summary" "summary.md") :=
  ⟨by decide, c8_save_to_md_idempotent_roundtrip "/home/user" [] "# Summary"
    "summary.md" (by decide)⟩

/-- **C9.** `STTEngine.process_chunk` returns `None` for every chunk,
whatever the chunk and whether or not credentials are configured. -/
theorem c9_process_chunk_always_none (e : STTEngine) (data : Chunk) :
    e.process_chunk data = none :=
  rfl

/-- **C10.** An empty-string API key is treated exactly like a missing one:
`STTEngine("")` and `MeetingSummarizer("")` construct the very same
client-less objects as `STTEngine(None)`/`MeetingSummarizer(None)`, and
their operations return the fixed missing-credentials string on every
input. -/
theorem c10_empty_key_is_missing_key (env : TranscribeEnv) (filename : String)
    (chat : String → Except String String) (transcript : String) :
    STTEngine.init (some "") = STTEngine.init none
    ∧ MeetingSummarizer.init (some "") = MeetingSummarizer.init none
    ∧ (STTEngine.init (some "")).transcribe_file env filename
        = ("Error: Groq API Key missing.", false)
    ∧ (MeetingSummarizer.init (some "")).generate_summary chat transcript
        = ("Error: Groq API Key missing.", false) :=
  ⟨rfl, rfl, rfl, rfl⟩

end Backend
